import Mathlib

/-!
Verification development for the `airic` repository: a shallow embedding of the
Document / Workspace / Initializer / REPL core, with theorems settling the
specification claims about them.

Strings manipulated character-by-character by the Python code are embedded as
`List Char` (called `Str`); filesystem paths are lists of components
(`FPath`), and the filesystem itself is an explicit finite state (`FS`).
-/

set_option maxRecDepth 100000

abbrev Str := List Char

/-- Python `str.strip()`: remove whitespace from both ends. -/
def pyStrip (s : Str) : Str :=
  ((s.dropWhile Char.isWhitespace).reverse.dropWhile Char.isWhitespace).reverse

/-- First index (in the given list) at which `pat` occurs as a prefix of the
corresponding suffix; `none` when there is no occurrence. -/
def findIdxAux (pat : Str) : Str → Option Nat
  | [] => if pat = [] then some 0 else none
  | c :: t => if pat.isPrefixOf (c :: t) then some 0 else (findIdxAux pat t).map (· + 1)

/-- Python `s.find(pat, start)` (with `some i` for a found absolute index and
`none` for Python's `-1`). -/
def pyFind (s pat : Str) (start : Nat) : Option Nat :=
  (findIdxAux pat (s.drop start)).map (· + start)

/-- Filesystem paths as lists of components from the filesystem root
(`[]` is the root `/`). -/
abbrev FPath := List String

/-- Explicit filesystem state: the set of existing directories and a map from
file paths to contents (`none` marks a file that exists but cannot be read,
modelling an I/O failure on open/read). -/
structure FS where
  dirs : List FPath
  files : List (FPath × Option String)
deriving DecidableEq

def FS.isDir (fs : FS) (p : FPath) : Bool := fs.dirs.contains p

def FS.fileExists (fs : FS) (p : FPath) : Bool := (fs.files.lookup p).isSome

def FS.readFile (fs : FS) (p : FPath) : Option String :=
  match fs.files.lookup p with
  | some (some c) => some c
  | _ => none

/-- `open(p, 'w')` followed by a full write: create or overwrite. -/
def FS.writeFile (fs : FS) (p : FPath) (c : String) : FS :=
  { fs with files := (fs.files.filter (fun e => e.1 ≠ p)) ++ [(p, some c)] }

/-- All nonempty prefixes of a path, shortest first. -/
def pathPrefixes (p : FPath) : List FPath :=
  (List.range p.length).map (fun i => p.take (i + 1))

def FS.mkdirOne (fs : FS) (p : FPath) : FS :=
  if fs.isDir p then fs else { fs with dirs := fs.dirs ++ [p] }

/-- Python `os.makedirs(p, exist_ok=True)`: create every missing ancestor and
the directory itself. -/
def FS.makedirs (fs : FS) (p : FPath) : FS :=
  (pathPrefixes p).foldl FS.mkdirOne fs

/-- Python `Path.unlink()` guarded by `exists()` (as in the rollback code). -/
def FS.unlink (fs : FS) (p : FPath) : FS :=
  { fs with files := fs.files.filter (fun e => e.1 ≠ p) }

/-- A directory is empty when no other directory and no file lies strictly
below it (Python `not any(dir_path.iterdir())`). -/
def FS.dirEmpty (fs : FS) (p : FPath) : Bool :=
  fs.dirs.all (fun d => !(p.isPrefixOf d && d ≠ p)) &&
  fs.files.all (fun e => !(p.isPrefixOf e.1 && e.1 ≠ p))

/-- Python `Path.rmdir()` guarded by existence and emptiness, as in
`_rollback_initialization`. -/
def FS.rmdirIfEmpty (fs : FS) (p : FPath) : FS :=
  if fs.isDir p && fs.dirEmpty p then
    { fs with dirs := fs.dirs.filter (fun d => d ≠ p) }
  else fs

/-- Recursive removal of a directory (with its whole subtree), used to state
the validation scenarios. -/
def FS.deleteTree (fs : FS) (p : FPath) : FS :=
  { dirs := fs.dirs.filter (fun d => !(p.isPrefixOf d)),
    files := fs.files.filter (fun e => !(p.isPrefixOf e.1)) }

/-- Remove a single file. -/
def FS.deleteFile (fs : FS) (p : FPath) : FS :=
  { fs with files := fs.files.filter (fun e => e.1 ≠ p) }

/-! ### YAML values (fragment used by the repository)

The YAML library itself is an external collaborator of the repository (out of
scope per the spec), so documents carry an abstract loader/dumper pair; a
concrete executable model (`yamlLoadModel`, `yamlDumpModel`) instantiates them
for witnesses. -/

/-- Result of `yaml.safe_load` restricted to the fragment the repository
actually stores: `null` (Python `None`), plain string scalars, and flat
string-to-string mappings. -/
inductive YValue where
  | null : YValue
  | scalar : String → YValue
  | mapping : List (String × String) → YValue
deriving DecidableEq

/-- Python truthiness of the loaded value (`None`, `""` and `{}` are falsy). -/
def YValue.isFalsy : YValue → Bool
  | .null => true
  | .scalar s => s = ""
  | .mapping m => m.isEmpty

/-- Python `value.get(key)`: succeeds on a mapping (dict), raises
`AttributeError` (modelled as `.error ()`) on `None` or a scalar. -/
def YValue.pyGet (v : YValue) (key : String) : Except Unit (Option String) :=
  match v with
  | .mapping m => .ok (m.lookup key)
  | _ => .error ()

/-- The frontmatter delimiter `---`. -/
def fmSep : Str := ['-', '-', '-']

/-- `Document._parse` (document.py 96-129): returns `(metadata, body)`.
`yload` abstracts `yaml.safe_load` (`none` models a raised parse error, which
the source catches and turns into an empty mapping with a warning). -/
def documentParse (yload : Str → Option YValue) (content : Str) : YValue × Str :=
  if fmSep.isPrefixOf content then
    match pyFind content fmSep fmSep.length with
    | some i =>
        let fm := pyStrip ((content.drop fmSep.length).take (i - fmSep.length))
        let body := pyStrip (content.drop (i + fmSep.length))
        let md := match yload fm with
          | none => YValue.mapping []
          | some v => if v.isFalsy then YValue.mapping [] else v
        (md, body)
    | none => (YValue.mapping [], content)
  else (YValue.mapping [], content)

/-- `Document._serialize` (document.py 131-147). `ydump` abstracts
`yaml.dump`. -/
def documentSerialize (ydump : YValue → Str) (md : YValue) (body : Str) : Str :=
  if md.isFalsy then body
  else fmSep ++ ('\n' :: ydump md) ++ fmSep ++ ('\n' :: '\n' :: body)

/-- Modelled from the spec: the external YAML dumper (`yaml.dump`, out of
scope), restricted to the flat string-mapping fragment: one `key: value` line
per entry. -/
def yamlDumpModel : YValue → Str
  | .mapping m => (m.map (fun kv => kv.1.toList ++ [':', ' '] ++ kv.2.toList ++ ['\n'])).flatten
  | .scalar s => s.toList ++ ['\n']
  | .null => "null\n".toList

/-- One `key: value` line of the flat mapping fragment. -/
def kvOfLine (l : Str) : Option (String × String) :=
  match pyFind l [':', ' '] 0 with
  | some i => some ((l.take i).asString, (pyStrip (l.drop (i + 2))).asString)
  | none => none

/-- Modelled from the spec: the external YAML loader (`yaml.safe_load`, out of
scope), restricted to flat string mappings and plain scalars: an input of
`key: value` lines loads as a mapping, an empty input as `null`, anything
else as a plain string scalar. -/
def yamlLoadModel (s : Str) : Option YValue :=
  let s' := pyStrip s
  let lines := (s'.splitOn '\n').filter (fun l => pyStrip l ≠ [])
  if lines = [] then some YValue.null
  else if lines.all (fun l => (kvOfLine l).isSome) then
    some (YValue.mapping (lines.filterMap kvOfLine))
  else some (YValue.scalar s'.asString)

/-- Decidable equality for `Except`, used to evaluate concrete runs. -/
instance {ε α : Type} [DecidableEq ε] [DecidableEq α] : DecidableEq (Except ε α) := fun x y =>
  match x, y with
  | .ok a, .ok b =>
      if h : a = b then isTrue (by rw [h]) else isFalse (by simp [h])
  | .error a, .error b =>
      if h : a = b then isTrue (by rw [h]) else isFalse (by simp [h])
  | .ok _, .error _ => isFalse (by simp)
  | .error _, .ok _ => isFalse (by simp)

/-! ### The Document object -/

/-- Why a document operation failed (`DocumentError` in the source). -/
inductive DocErr where
  | loadFailed : FPath → DocErr
deriving DecidableEq

/-- The state of a `Document` instance: `contentCache` is the `_content`
field (invalidated by updates, recomputed by the `content` property). -/
structure DocState where
  path : FPath
  name : String
  metadata : YValue
  body : Str
  contentCache : Option Str
deriving DecidableEq

/-- `path.name`: the final path component. -/
def pathName (p : FPath) : String := p.getLast?.getD ""

/-- A document freshly produced by `_parse` on given raw content. -/
def documentOfContent (yload : Str → Option YValue) (path : FPath) (content : Str) : DocState :=
  let pr := documentParse yload content
  { path := path, name := pathName path, metadata := pr.1, body := pr.2,
    contentCache := some content }

/-- `Document.__init__` (document.py 35-53) together with `_load`
(82-94): loading happens only when no content is given and the file exists;
a failing read raises `DocumentError`. -/
def documentInit (yload : Str → Option YValue) (fs : FS) (path : FPath)
    (content : Option Str) : Except DocErr DocState :=
  match content with
  | some c => .ok (documentOfContent yload path c)
  | none =>
      if fs.fileExists path then
        match fs.readFile path with
        | some c => .ok (documentOfContent yload path c.toList)
        | none => .error (DocErr.loadFailed path)
      else
        .ok { path := path, name := pathName path, metadata := YValue.mapping [],
              body := [], contentCache := none }

/-- The `doctype` property: `self._metadata.get('doctype')`. -/
def documentDoctype (d : DocState) : Except Unit (Option String) :=
  d.metadata.pyGet "doctype"

/-- The `agent` property: `self._metadata.get('agent')`. -/
def documentAgent (d : DocState) : Except Unit (Option String) :=
  d.metadata.pyGet "agent"

/-! ### Workspace model (workspace.py) -/

/-- Split a relative path string on `/` into components. -/
def relParts (s : String) : FPath :=
  ((s.toList.splitOn '/').filter (fun c => c ≠ [])).map List.asString

/-- `Workspace.REQUIRED_DIRS` (workspace.py 102-109). -/
def REQUIRED_DIRS : List String :=
  [".airic", ".airic/meta", ".airic/meta/agents", ".airic/meta/doctypes",
   ".airic/meta/workflows", ".airic/history"]

/-- The workspace's config file path `<root>/.airic/config.yaml`. -/
def configPath (root : FPath) : FPath := root ++ [".airic", "config.yaml"]

/-- `Workspace.is_initialized` (workspace.py 181-195): all six required
directories exist. -/
def workspaceIsInitialized (fs : FS) (root : FPath) : Bool :=
  fs.isDir (root ++ [".airic"]) &&
  fs.isDir (root ++ [".airic", "meta"]) &&
  fs.isDir (root ++ [".airic", "meta", "agents"]) &&
  fs.isDir (root ++ [".airic", "meta", "doctypes"]) &&
  fs.isDir (root ++ [".airic", "meta", "workflows"]) &&
  fs.isDir (root ++ [".airic", "history"])

/-- `Workspace.validate` (workspace.py 197-217): one message per missing
required directory, then the config-file message, the latter only when the
top-level `.airic` directory exists. -/
def workspaceValidate (fs : FS) (root : FPath) : List String :=
  let errors := REQUIRED_DIRS.filterMap (fun d =>
    if fs.isDir (root ++ relParts d) then none
    else some ("Required directory '" ++ d ++ "' is missing"))
  if fs.isDir (root ++ [".airic"]) && !(fs.fileExists (configPath root)) then
    errors ++ ["Configuration file 'config.yaml' is missing"]
  else errors

/-- `Workspace.find_workspace_root` (workspace.py 150-179): look for a
`.airic` directory here, else recurse into the parent; at the filesystem
root (whose parent is itself) the walk stops with `none`. -/
def find_workspace_root (fs : FS) (p : FPath) : Option FPath :=
  if fs.isDir (p ++ [".airic"]) then some p
  else if h : p = [] then none
  else find_workspace_root fs p.dropLast
termination_by p.length
decreasing_by
  simp only [List.length_dropLast]
  exact Nat.sub_lt (List.length_pos.mpr h) Nat.one_pos

/-- The chain of directories the upward walk visits: the start directory,
then each ancestor down to the filesystem root (spec wording: "the start
directory or its nearest ancestor"). -/
def ancestorChain (p : FPath) : List FPath :=
  p :: (if h : p = [] then [] else ancestorChain p.dropLast)
termination_by p.length
decreasing_by
  simp only [List.length_dropLast]
  exact Nat.sub_lt (List.length_pos.mpr h) Nat.one_pos

/-! ### Workspace configuration (`WorkspaceConfig`, `Workspace.initialize`) -/

/-- A Python dict with string keys and scalar-or-`None` values, as stored in
`config.yaml`. -/
abbrev PyDict := List (String × Option String)

/-- `WorkspaceConfig.DEFAULT_CONFIG` (workspace.py 25-30). -/
def DEFAULT_CONFIG : PyDict :=
  [("version", some "0.1.0"),
   ("name", some "airic-workspace"),
   ("description", some "Airic workspace for document-driven AI collaboration"),
   ("created_at", none)]

/-- Python dict assignment `d[k] = v`: replace the (unique) occurrence of the
key in place, else append at the end. -/
def pyDictSet : PyDict → String → Option String → PyDict
  | [], k, v => [(k, v)]
  | (k0, v0) :: t, k, v =>
      if k0 = k then (k, v) :: t else (k0, v0) :: pyDictSet t k v

/-- Modelled from the spec: `yaml.dump` of a flat config mapping (the YAML
library is out of scope); one `key: value` line per entry, insertion order. -/
def configDump (d : PyDict) : String :=
  String.join (d.map (fun kv => kv.1 ++ ": " ++ kv.2.getD "null" ++ "\n"))

/-- `Workspace.initialize` (workspace.py 228-261), named `WsInit` here.
Creates the six directories with `mkdir(exist_ok=True)` (the first of which
raises if the root itself is missing, caught and turned into `False`),
builds a `WorkspaceConfig` from the given data (defaults apply only when no
data is passed), stamps `created_at` only when the config file does not yet
exist, and saves.  Returns (success, the `_config` cache set on success),
and the new filesystem. -/
def workspaceWsInit (fs : FS) (root : FPath) (config_data : Option PyDict)
    (now : String) : (Bool × Option PyDict) × FS :=
  if !(fs.isDir root) then ((false, none), fs)
  else
    let fs1 := ((((((fs.mkdirOne (root ++ [".airic"])).mkdirOne
        (root ++ [".airic", "meta"])).mkdirOne
        (root ++ [".airic", "meta", "agents"])).mkdirOne
        (root ++ [".airic", "meta", "doctypes"])).mkdirOne
        (root ++ [".airic", "meta", "workflows"])).mkdirOne
        (root ++ [".airic", "history"]))
    let data0 := config_data.getD DEFAULT_CONFIG
    let data := if !(fs1.fileExists (configPath root)) then
        pyDictSet data0 "created_at" (some now)
      else data0
    ((true, some data), fs1.writeFile (configPath root) (configDump data))

/-! ### Initializer (init.py) -/

/-- `DEFAULT_TEMPLATES` (init.py 18-198): relative path under the meta
directory, and file content. -/
def DEFAULT_TEMPLATES : List (String × String) :=
  [("doctypes/agent_def.md",
    "---\nname: agent_def\ndescription: Template and guidelines for creating agent definitions\nversion: 0.1.0\ndoctype: doctype\n---\n\n# Agent Definition Document Type\n\nThis document type is designed for defining agents in the Airic workspace. \nAgents are specialized AI assistants that follow specific behavior patterns when interacting with documents.\n\n## Structure\n\nAgent definition documents should include:\n\n1. **Metadata (YAML Frontmatter):**\n   ```yaml\n   ---\n   name: agent_name              # Required: Unique identifier for the agent\n   description: Short summary    # Required: Brief description of agent's purpose\n   version: 0.1.0                # Required: Semantic version\n   tools: [tool1, tool2]         # Optional: Tools this agent can use (future feature)\n   ---\n   ```\n\n2. **Agent Description:**\n   - Detailed explanation of the agent's purpose and capabilities\n   - Target use cases and document types it works best with\n\n3. **System Prompt:**\n   - Specific instructions that define the agent's behavior\n   - Personality traits, response style, and expertise areas\n   - Constraints and guidelines for interactions\n\n4. **Examples (Optional):**\n   - Sample interactions showing how the agent should respond\n   - \"Do\" and \"Don't\" examples to clarify behavior boundaries\n\n## Guidelines\n\n- Keep system prompts specific and focused on a single responsibility\n- Use clear, direct language in system prompts\n- Avoid contradictory instructions\n- Consider the agent's limitations when defining capabilities\n- Test agents with various document types and user queries\n"),
   ("doctypes/doctype_def.md",
    "---\nname: doctype_def\ndescription: Template and guidelines for creating document type definitions\nversion: 0.1.0\ndoctype: doctype\n---\n\n# DocType Definition Document Type\n\nThis document type is designed for defining document types in the Airic workspace.\nDocument types define the structure, purpose, and processing rules for different kinds of documents.\n\n## Structure\n\nDocType definition documents should include:\n\n1. **Metadata (YAML Frontmatter):**\n   ```yaml\n   ---\n   name: doctype_name           # Required: Unique identifier for the doctype\n   description: Short summary   # Required: Brief description of doctype's purpose\n   version: 0.1.0               # Required: Semantic version\n   ---\n   ```\n\n2. **Purpose Description:**\n   - Detailed explanation of what this document type is used for\n   - When and why to use this document type\n\n3. **Structure Guidelines:**\n   - Required and optional sections\n   - Formatting and content requirements\n   - Any special syntax or conventions\n\n4. **Examples (Optional):**\n   - Sample document snippets showing proper structure\n   - Templates that can be copied and adapted\n\n## Guidelines\n\n- Focus on structure more than content requirements\n- Provide clear, actionable guidelines for document creation\n- Balance flexibility and standardization\n- Consider both human readability and machine processability\n- Test document types with relevant agents to ensure compatibility\n"),
   ("doctypes/workflow_def.md",
    "---\nname: workflow_def\ndescription: Template and guidelines for creating workflow definitions\nversion: 0.1.0\ndoctype: doctype\n---\n\n# Workflow Definition Document Type\n\nThis document type is designed for defining workflows in the Airic workspace.\nWorkflows define multi-step processes that guide users through completing complex tasks.\n\n## Structure\n\nWorkflow definition documents should include:\n\n1. **Metadata (YAML Frontmatter):**\n   ```yaml\n   ---\n   name: workflow_name          # Required: Unique identifier for the workflow\n   description: Short summary   # Required: Brief description of workflow's purpose\n   version: 0.1.0               # Required: Semantic version\n   doctype: workflow            # Required: Always set to \"workflow\"\n   ---\n   ```\n\n2. **Purpose Description:**\n   - Detailed explanation of what this workflow accomplishes\n   - When and why to use this workflow\n\n3. **Stages:**\n   - Clearly defined steps in the workflow\n   - Dependencies between steps\n   - Expected inputs and outputs for each step\n\n4. **Usage Instructions:**\n   - How to initiate and progress through the workflow\n   - How to track status and completion\n\n## Guidelines\n\n- Break complex processes into clear, manageable steps\n- Define success criteria for each step and the overall workflow\n- Provide guidance for handling common issues or exceptions\n- Consider different skill levels when designing workflow instructions\n- Test workflows end-to-end to ensure they lead to successful outcomes\n"),
   ("agents/assistant.md",
    "---\nname: assistant\ndescription: A general-purpose assistant for document interaction and task support\nversion: 0.1.0\n---\n\n# Assistant Agent\n\nYou are a helpful AI assistant that works with the user in the context of their current document.\nWhen interacting with the user, you should consider the content of their current document, its metadata,\nand any relevant context from linked documents.\n\n## Guidelines\n\n- Be concise and direct in your responses\n- When the user asks about content in their document, reference it specifically\n- Help with drafting, editing, and organizing document content\n- Suggest improvements to document structure and clarity\n- When appropriate, help the user break down complex tasks into smaller steps\n- If the document has a specific doctype, follow the associated guidelines\n- Offer relevant commands when they would help the user\n\n## Document Context\n\nFor each interaction, you'll receive:\n- The content of the user's current document\n- Document metadata (like doctype, if specified)\n- Any relevant history from previous interactions with this document\n- Information about linked documents (when available)\n\nUse this context to provide the most helpful, relevant responses possible.\n")]

/-- `_rollback_initialization`, file half (init.py 332-339): remove created
files in reverse creation order (each guarded by existence, which `unlink`
subsumes). -/
def rollbackFiles (fs : FS) (created_files : List FPath) : FS :=
  created_files.reverse.foldl FS.unlink fs

/-- `_rollback_initialization`, directory half (init.py 341-350): remove
created directories in reverse order, each only if now empty. -/
def rollbackDirs (fs : FS) (created_dirs : List FPath) : FS :=
  created_dirs.reverse.foldl FS.rmdirIfEmpty fs

/-- `_rollback_initialization` (init.py 324-350): files first, then
directories. -/
def rollbackRun (fs : FS) (created_dirs created_files : List FPath) : FS :=
  rollbackDirs (rollbackFiles fs created_files) created_dirs

/-- The template-writing loop of `initialize_workspace` (init.py 288-294),
with an injected I/O failure before writing template number `failAt`
(modelling `create_template_file` raising there).  Returns whether the loop
completed, the filesystem, and the tracked created-files list ("track only
what succeeded"). -/
def templateLoop (metaDir : FPath) (failAt : Option Nat) :
    List (String × String) → Nat → FS → List FPath → Bool × FS × List FPath
  | [], _, fs, created => (true, fs, created)
  | (rel, content) :: rest, i, fs, created =>
      if failAt = some i then (false, fs, created)
      else
        let dest := metaDir ++ relParts rel
        let fs1 := (fs.makedirs dest.dropLast).writeFile dest content
        templateLoop metaDir failAt rest (i + 1) fs1 (created ++ [dest])

/-- README content (init.py 300-311): `config.get` with a default, where a
present-but-`None` value renders as Python's `"None"`. -/
def pyGetOrDefault (d : PyDict) (k : String) (default : String) : String :=
  match d.lookup k with
  | some (some s) => s
  | some none => "None"
  | none => default

def readmeContent (cfg : PyDict) : String :=
  "# " ++ pyGetOrDefault cfg "name" "Airic Workspace" ++ "\n\n" ++
  pyGetOrDefault cfg "description"
    "An Airic workspace for document-driven AI collaboration" ++ "\n"

/-- `initialize_workspace` (init.py 214-321).  `failTemplate` injects the
failure of the `failTemplate`-th template write (the only failure source the
claims exercise; directory and config writes succeed in the model).
Mirrors the source: early return when already initialized; create and track
the six directories (`os.makedirs`); write and track the config file
(auto-filling `created_at` and `version` when absent); write and track the
template files, rolling everything back on a failure there; finally write
`README.md` when absent (non-fatal, never rolled back). -/
def initialize_workspace (fs : FS) (directory : FPath) (config : Option PyDict)
    (now : String) (failTemplate : Option Nat) : (Bool × List String) × FS :=
  if workspaceIsInitialized fs directory then
    ((true, ["Workspace already initialized"]), fs)
  else
    let airic := directory ++ [".airic"]
    let created_dirs := [airic, airic ++ ["meta"], airic ++ ["meta", "agents"],
      airic ++ ["meta", "doctypes"], airic ++ ["meta", "workflows"],
      airic ++ ["history"]]
    let fs6 := created_dirs.foldl FS.makedirs fs
    let wcfg0 := config.getD []
    let wcfg1 := if (wcfg0.lookup "created_at").isNone then
        wcfg0 ++ [("created_at", some now)] else wcfg0
    let wcfg := if (wcfg1.lookup "version").isNone then
        wcfg1 ++ [("version", some "0.1.0")] else wcfg1
    let cfgPath := airic ++ ["config.yaml"]
    let fs7 := fs6.writeFile cfgPath (configDump wcfg)
    match templateLoop (airic ++ ["meta"]) failTemplate DEFAULT_TEMPLATES 0 fs7 [cfgPath] with
    | (false, fsx, createdF) =>
        ((false, ["Error creating template files: injected I/O error"]),
         rollbackRun fsx created_dirs createdF)
    | (true, fsx, _) =>
        let readmePath := directory ++ ["README.md"]
        let fsr := if fsx.fileExists readmePath then fsx
          else fsx.writeFile readmePath (readmeContent wcfg)
        ((true, []), fsr)

/-! ### Document factory and save (document.py 149-241) -/

/-- Python `str.title()`: uppercase the first character of every alphabetic
run, lowercase the rest. -/
def pyTitleAux : Bool → Str → Str
  | _, [] => []
  | prevAlpha, c :: t =>
      (if prevAlpha then c.toLower else c.toUpper) :: pyTitleAux c.isAlpha t

def pyTitle (s : Str) : Str := pyTitleAux false s

/-- `Path.stem`: the final component without its extension (a dot at
position 0 or at the very end does not open an extension). -/
def pathStem (p : FPath) : Str :=
  let n := (pathName p).toList
  match (findIdxAux ['.'] n.reverse).map (fun j => n.length - 1 - j) with
  | some i => if 0 < i ∧ i < n.length - 1 then n.take i else n
  | none => n

/-- Python dict assignment for string-valued metadata dicts: replace the
(unique) occurrence of the key in place, else append at the end. -/
def strDictSet : List (String × String) → String → String → List (String × String)
  | [], k, v => [(k, v)]
  | (k0, v0) :: t, k, v =>
      if k0 = k then (k, v) :: t else (k0, v0) :: strDictSet t k v

/-- `Document.create_empty` (document.py 205-241): default metadata
`created_at`/`title` updated with the caller's metadata, a heading-plus-
placeholder body, serialized into content and re-parsed through
`Document(path, content)`. -/
def documentCreateEmpty (ydump : YValue → Str) (yload : Str → Option YValue)
    (path : FPath) (metadata : Option (List (String × String)))
    (title : Option String) (now : String) : DocState :=
  let t := title.getD
    ((pyTitle ((pathStem path).map (fun c => if c = '_' then ' ' else c))).asString)
  let defaultMeta : List (String × String) := [("created_at", now), ("title", t)]
  let meta := match metadata with
    | some m => m.foldl (fun acc kv => strDictSet acc kv.1 kv.2) defaultMeta
    | none => defaultMeta
  let body := "# ".toList ++ t.toList ++ "\n\nYour content here...\n".toList
  let content := fmSep ++ ('\n' :: ydump (YValue.mapping meta)) ++ fmSep ++
    ('\n' :: '\n' :: body)
  documentOfContent yload path content

/-- The `content` property (document.py 65-70): the cached serialized
content, recomputed when invalidated. -/
def documentContentProp (ydump : YValue → Str) (d : DocState) : Str × DocState :=
  match d.contentCache with
  | some c => (c, d)
  | none =>
      let c := documentSerialize ydump d.metadata d.body
      (c, { d with contentCache := some c })

/-- `Document.save` (document.py 149-164): create parent directories, then
overwrite the file with the full serialized content. -/
def documentSave (ydump : YValue → Str) (fs : FS) (d : DocState) : FS × DocState :=
  let pr := documentContentProp ydump d
  ((fs.makedirs d.path.dropLast).writeFile d.path pr.1.asString, pr.2)

/-! ### REPL session state and handlers (repl.py) -/

/-- The REPL session state the claims are about (repl.py 169-173). -/
structure REPLState where
  workspace : Option FPath
  active_document : Option DocState
  active_doctype : Option String
  active_agent : Option String
deriving DecidableEq

/-- The regex `^\[\[(.+)\]\]$` of `_resolve_document_path`: brackets around
a nonempty middle without newlines (`.` does not match a newline); the group
is everything between the outer bracket pairs. -/
def wikilinkInner (s : Str) : Option Str :=
  let inner := (s.drop 2).take (s.length - 4)
  if 5 ≤ s.length ∧ (['[', '['].isPrefixOf s) ∧ ([']', ']'].isSuffixOf s) ∧
      '\n' ∉ inner then
    some inner
  else none

/-- Components of a path string (Python `Path` joining splits on `/`). -/
def splitSlash (s : Str) : FPath :=
  ((s.splitOn '/').filter (fun c => c ≠ [])).map List.asString

/-- `AiricREPL._resolve_document_path` (repl.py 553-588): WikiLinks get
`.md` appended, a leading `/` targets the workspace root, otherwise the
parent directory of the active document (the root when none); plain
relative paths resolve against the root and plain absolute paths stand. -/
def resolveDocumentPath (root : FPath) (activeDocPath : Option FPath)
    (input : Str) : Option FPath :=
  let path_str := pyStrip input
  if path_str = [] then none
  else
    match wikilinkInner path_str with
    | some inner =>
        let link_content := pyStrip inner
        let target := (link_content.dropWhile (fun c => c = '/')) ++ ".md".toList
        if link_content.head? = some '/' then
          some (root ++ splitSlash target)
        else
          match activeDocPath with
          | some dp => some (dp.dropLast ++ splitSlash target)
          | none => some (root ++ splitSlash target)
    | none =>
        if path_str.head? = some '/' then some (splitSlash path_str)
        else some (root ++ splitSlash path_str)

/-- `AiricREPL._handle_close` (repl.py 759-774): with no active document
only an error is printed; otherwise the document and the doctype are
cleared (`active_agent` is left untouched by the source). -/
def handleClose (s : REPLState) : REPLState :=
  if s.active_document.isNone then s
  else { s with active_document := none, active_doctype := none }

/-- `AiricREPL._handle_open` (repl.py 590-669).  `.ok` carries the state and
filesystem after the handler returns normally (printed errors included);
`.error` carries them at the point an `AttributeError` from the
`doctype`/`agent` accessors escapes the handler (only `DocumentError` is
caught there). -/
def handleOpen (ydump : YValue → Str) (yload : Str → Option YValue) (now : String)
    (fs : FS) (s : REPLState) (args : Str) : Except (REPLState × FS) (REPLState × FS) :=
  match s.workspace with
  | none => .ok (s, fs)
  | some root =>
    let path_str := pyStrip args
    if path_str = [] then
      match s.active_document with
      | none => .ok (s, fs)
      | some d =>
          if fs.fileExists d.path then
            match fs.readFile d.path with
            | some c =>
                .ok ({ s with active_document := some (documentOfContent yload d.path c.toList) }, fs)
            | none => .ok (s, fs)
          else .ok (s, fs)
    else
      match resolveDocumentPath root (s.active_document.map (fun d => d.path)) path_str with
      | none => .ok (s, fs)
      | some rp =>
        if !(fs.fileExists rp) then
          if (wikilinkInner path_str).isSome then
            let fs1 := fs.makedirs rp.dropLast
            let doc := documentCreateEmpty ydump yload rp none none now
            let pr := documentSave ydump fs1 doc
            match documentDoctype pr.2 with
            | .error _ => .error ({ s with active_document := some pr.2 }, pr.1)
            | .ok dt =>
              match documentAgent pr.2 with
              | .error _ =>
                  .error ({ s with active_document := some pr.2, active_doctype := dt }, pr.1)
              | .ok ag =>
                  let s' := { s with active_document := some pr.2
                                     active_doctype := dt
                                     active_agent := ag }
                  .ok (s', pr.1)
          else .ok (s, fs)
        else if s.active_document.map (fun d => d.path) = some rp then .ok (s, fs)
        else
          match documentInit yload fs rp none with
          | .error _ => .ok (s, fs)
          | .ok d =>
            match documentDoctype d with
            | .error _ => .error ({ s with active_document := some d }, fs)
            | .ok dt =>
              match documentAgent d with
              | .error _ =>
                  .error ({ s with active_document := some d, active_doctype := dt }, fs)
              | .ok ag =>
                  let s' := { s with active_document := some d
                                     active_doctype := dt
                                     active_agent := ag }
                  .ok (s', fs)

/-- `AiricREPL._handle_new` (repl.py 671-714): create and save an empty
document and make it active; the source sets `active_doctype` from the new
document but never touches `active_agent`. -/
def handleNew (ydump : YValue → Str) (yload : Str → Option YValue) (now : String)
    (fs : FS) (s : REPLState) (args : Str) : Except (REPLState × FS) (REPLState × FS) :=
  match s.workspace with
  | none => .ok (s, fs)
  | some root =>
    if args = [] then .ok (s, fs)
    else
      let path_str := pyStrip args
      let p := if path_str.head? = some '/' then splitSlash path_str
        else root ++ splitSlash path_str
      if fs.fileExists p then .ok (s, fs)
      else
        let doc := documentCreateEmpty ydump yload p none none now
        let pr := documentSave ydump fs doc
        match documentDoctype pr.2 with
        | .error _ => .error ({ s with active_document := some pr.2 }, pr.1)
        | .ok dt =>
            .ok ({ s with active_document := some pr.2, active_doctype := dt }, pr.1)

/-! ### Concrete scenarios used by witnesses and counterexamples -/

/-- A fresh filesystem holding only the directory `/ws`. -/
def freshWsFS : FS := ⟨[["ws"]], []⟩

/-- The filesystem after a successful `initialize_workspace` on `/ws`:
a fully valid workspace. -/
def validWsFS : FS := (initialize_workspace freshWsFS ["ws"] none "NOW" none).2

/-- A filesystem with one document whose frontmatter names an agent. -/
def agentDocFS : FS :=
  ⟨[["ws"]], [(["ws", "doc.md"], some "---\nagent: helper\n---\nBody")]⟩

/-- A REPL session inside `/ws` with no active document. -/
def wsSession : REPLState := ⟨some ["ws"], none, none, none⟩

/-! ### Helper lemmas about the filesystem operations -/

theorem mkdirOne_mem_self (fs : FS) (p : FPath) : p ∈ (fs.mkdirOne p).dirs := by
  by_cases h : p ∈ fs.dirs
  · simp [FS.mkdirOne, FS.isDir, h]
  · simp [FS.mkdirOne, FS.isDir, h]

theorem mkdirOne_mem_of_mem (fs : FS) (p q : FPath) (h : q ∈ fs.dirs) :
    q ∈ (fs.mkdirOne p).dirs := by
  unfold FS.mkdirOne
  by_cases hc : fs.isDir p <;> simp [hc, h]

theorem foldl_mkdirOne_mem (l : List FPath) (fs : FS) (q : FPath) (h : q ∈ fs.dirs) :
    q ∈ (l.foldl FS.mkdirOne fs).dirs := by
  induction l generalizing fs with
  | nil => simpa using h
  | cons a t ih => exact ih _ (mkdirOne_mem_of_mem fs a q h)

theorem makedirs_mem_of_mem (fs : FS) (p q : FPath) (h : q ∈ fs.dirs) :
    q ∈ (fs.makedirs p).dirs :=
  foldl_mkdirOne_mem _ fs q h

theorem pathPrefixes_concat (p : FPath) (hp : p ≠ []) :
    pathPrefixes p = pathPrefixes p.dropLast ++ [p] := by
  unfold pathPrefixes
  obtain ⟨n, hn⟩ : ∃ n, p.length = n + 1 :=
    ⟨p.length - 1, (Nat.succ_pred_eq_of_pos (List.length_pos.mpr hp)).symm⟩
  rw [hn, List.range_succ, List.map_append, List.length_dropLast, hn]
  simp only [Nat.add_sub_cancel, List.map_cons, List.map_nil]
  congr 1
  · apply List.map_congr_left
    intro i hi
    rw [List.mem_range] at hi
    rw [List.dropLast_eq_take, hn, List.take_take, Nat.add_sub_cancel,
      Nat.min_eq_left (by omega)]
  · rw [List.take_of_length_le (by omega)]

theorem makedirs_mem_self (fs : FS) (p : FPath) (hp : p ≠ []) :
    p ∈ (fs.makedirs p).dirs := by
  unfold FS.makedirs
  rw [pathPrefixes_concat p hp, List.foldl_append]
  exact mkdirOne_mem_self _ p

theorem writeFile_dirs (fs : FS) (p : FPath) (c : String) :
    (fs.writeFile p c).dirs = fs.dirs := rfl

theorem mkdirOne_files (fs : FS) (p : FPath) : (fs.mkdirOne p).files = fs.files := by
  unfold FS.mkdirOne
  by_cases h : fs.isDir p <;> simp [h]

theorem templateLoop_dirs_mono (md : FPath) (f : Option Nat) (ts : List (String × String))
    (i : Nat) (fs : FS) (cr : List FPath) (q : FPath) (h : q ∈ fs.dirs) :
    q ∈ (templateLoop md f ts i fs cr).2.1.dirs := by
  induction ts generalizing i fs cr with
  | nil => simpa [templateLoop] using h
  | cons a t ih =>
      rw [templateLoop]
      by_cases hf : f = some i
      · simpa [hf] using h
      · simp only [hf, if_false]
        exact ih _ _ _ (by rw [writeFile_dirs]; exact makedirs_mem_of_mem _ _ _ h)

theorem lookup_filter_ne_append (l : List (FPath × Option String)) (p : FPath)
    (v : Option String) :
    ((l.filter (fun e => e.1 ≠ p)) ++ [(p, v)]).lookup p = some v := by
  induction l with
  | nil => simp [List.lookup]
  | cons a t ih =>
      obtain ⟨k, w⟩ := a
      by_cases h : k = p
      · rw [List.filter_cons_of_neg (by simp [h])]
        exact ih
      · rw [List.filter_cons_of_pos (by simp [h]), List.cons_append]
        have hk : (p == k) = false := beq_eq_false_iff_ne.mpr (Ne.symm h)
        simpa [List.lookup, hk] using ih

theorem fileExists_writeFile_self (fs : FS) (p : FPath) (c : String) :
    (fs.writeFile p c).fileExists p = true := by
  unfold FS.writeFile FS.fileExists
  rw [lookup_filter_ne_append]
  rfl

theorem readFile_writeFile_self (fs : FS) (p : FPath) (c : String) :
    (fs.writeFile p c).readFile p = some c := by
  unfold FS.writeFile FS.readFile
  rw [lookup_filter_ne_append]

/-! ### Claim C10 -/

/-- C10: constructing a Document on a path that does not exist, with no
content argument, performs no read and raises nothing, yielding empty
metadata and an empty body; the DocumentError path is taken only when the
file exists but cannot be read. -/
theorem C10_nonexistent_path (yload : Str → Option YValue) (fs fs' : FS)
    (p p' : FPath) (e : DocErr) (h : fs.fileExists p = false)
    (h' : documentInit yload fs' p' none = .error e) :
    documentInit yload fs p none =
      .ok { path := p, name := pathName p, metadata := YValue.mapping [],
            body := [], contentCache := none } ∧
    (fs'.fileExists p' = true ∧ fs'.readFile p' = none) := by
  constructor
  · simp [documentInit, h]
  · unfold documentInit at h'
    by_cases hex : fs'.fileExists p'
    · refine ⟨hex, ?_⟩
      cases hr : fs'.readFile p' with
      | some c => simp [hex, hr] at h'
      | none => rfl
    · simp [hex] at h'

/-- Witness for C10: a concrete absent path and a concrete unreadable file. -/
theorem C10_nonexistent_path_witness :
    freshWsFS.fileExists ["ws", "nope.md"] = false ∧
    documentInit yamlLoadModel (⟨[["ws"]], [(["ws", "bad.md"], none)]⟩ : FS)
      ["ws", "bad.md"] none = .error (DocErr.loadFailed ["ws", "bad.md"]) ∧
    (documentInit yamlLoadModel freshWsFS ["ws", "nope.md"] none =
      .ok { path := ["ws", "nope.md"], name := pathName ["ws", "nope.md"],
            metadata := YValue.mapping [], body := [], contentCache := none } ∧
    ((⟨[["ws"]], [(["ws", "bad.md"], none)]⟩ : FS).fileExists ["ws", "bad.md"] = true ∧
      (⟨[["ws"]], [(["ws", "bad.md"], none)]⟩ : FS).readFile ["ws", "bad.md"] = none)) :=
  ⟨by decide, by decide,
   C10_nonexistent_path yamlLoadModel freshWsFS ⟨[["ws"]], [(["ws", "bad.md"], none)]⟩
     ["ws", "nope.md"] ["ws", "bad.md"] (DocErr.loadFailed ["ws", "bad.md"])
     (by decide) (by decide)⟩

/-! ### Claim C9 -/

/-- C9: evaluation of the code at the failing input `---\nhello\n---\nbody`:
the frontmatter YAML loads as the non-mapping scalar `hello`, which the
truthy `or {}` guard lets through, so `_metadata` is not a dict and both the
`doctype` and the `agent` accessor raise `AttributeError` instead of
returning None — contradicting the claim (and the source's own
`Dict[str, Any]`/`Optional[str]` annotations). -/
theorem C9_scalar_frontmatter_raises :
    (documentInit yamlLoadModel freshWsFS ["ws", "doc.md"]
        (some "---\nhello\n---\nbody".toList)).map
      (fun d => (d.metadata, documentDoctype d, documentAgent d)) =
    .ok (YValue.scalar "hello", Except.error (), Except.error ()) := by decide

/-! ### Claim C4 -/

/-- C4: with `docs/current.md` active, `[[Notes]]` resolves to its sibling
`docs/Notes.md`; `[[/Notes]]` resolves to `<root>/Notes.md` in every session
state, with or without an active document. -/
theorem C4_wikilink_resolution (root : FPath) (ad : Option FPath) :
    resolveDocumentPath root (some (root ++ ["docs", "current.md"]))
        "[[Notes]]".toList = some (root ++ ["docs", "Notes.md"]) ∧
    resolveDocumentPath root ad "[[/Notes]]".toList =
      some (root ++ ["Notes.md"]) := by
  have hdl : (root ++ ["docs", "current.md"] : FPath).dropLast = root ++ ["docs"] := by
    rw [show (["docs", "current.md"] : FPath) = ["docs"] ++ ["current.md"] from rfl,
      ← List.append_assoc, List.dropLast_concat]
  constructor
  · calc resolveDocumentPath root (some (root ++ ["docs", "current.md"])) "[[Notes]]".toList
        = some ((root ++ ["docs", "current.md"]).dropLast ++ ["Notes.md"]) := rfl
      _ = some (root ++ ["docs", "Notes.md"]) := by rw [hdl]; simp
  · cases ad <;> rfl

/-! ### Claim C2 -/

/-- C2: when directory and config creation succeed but the `k`-th template
write fails, `initialize_workspace` reports failure, the config file written
earlier in the call is gone, and the rollback (files in reverse creation
order, then directories in reverse order when empty) restores the
filesystem exactly to its prior state. -/
theorem C2_rollback_atomicity (k : Nat) (hk : k < 4) :
    (initialize_workspace freshWsFS ["ws"] none "NOW" (some k)).1.1 = false ∧
    (initialize_workspace freshWsFS ["ws"] none "NOW" (some k)).2.fileExists
      (configPath ["ws"]) = false ∧
    (initialize_workspace freshWsFS ["ws"] none "NOW" (some k)).2 = freshWsFS := by
  interval_cases k
  · decide
  · decide
  · decide
  · decide

/-- Witness for C2: the failure injected at the first template write. -/
theorem C2_rollback_atomicity_witness :
    0 < 4 ∧
    ((initialize_workspace freshWsFS ["ws"] none "NOW" (some 0)).1.1 = false ∧
     (initialize_workspace freshWsFS ["ws"] none "NOW" (some 0)).2.fileExists
       (configPath ["ws"]) = false ∧
     (initialize_workspace freshWsFS ["ws"] none "NOW" (some 0)).2 = freshWsFS) :=
  ⟨by decide, C2_rollback_atomicity 0 (by decide)⟩

/-! ### Claim C7 -/

/-- Counterexample to C7 as stated: `.airic/meta` is a required
subdirectory, yet deleting it from a fully valid workspace yields four
validation errors (one per required directory in its subtree), not exactly
one. -/
theorem C7_counterexample :
    workspaceValidate validWsFS ["ws"] = [] ∧
    (workspaceValidate (validWsFS.deleteTree ["ws", ".airic", "meta"]) ["ws"]).length = 4 := by
  constructor
  · decide
  · decide

/-- C7 (amended): deleting one required subdirectory that contains no other
required directory (any of the four leaf directories) yields exactly one
error naming it; deleting that directory and the config file yields exactly
those two errors (the config error is reported because `.airic` still
exists). -/
theorem C7_validation_completeness (d : String)
    (hd : d ∈ [".airic/meta/agents", ".airic/meta/doctypes",
               ".airic/meta/workflows", ".airic/history"]) :
    workspaceValidate (validWsFS.deleteTree (["ws"] ++ relParts d)) ["ws"] =
      ["Required directory '" ++ d ++ "' is missing"] ∧
    workspaceValidate
        ((validWsFS.deleteTree (["ws"] ++ relParts d)).deleteFile (configPath ["ws"]))
        ["ws"] =
      ["Required directory '" ++ d ++ "' is missing",
       "Configuration file 'config.yaml' is missing"] := by
  fin_cases hd
  · exact ⟨by decide, by decide⟩
  · exact ⟨by decide, by decide⟩
  · exact ⟨by decide, by decide⟩
  · exact ⟨by decide, by decide⟩

/-- Witness for C7: the history directory. -/
theorem C7_validation_completeness_witness :
    ".airic/history" ∈ [".airic/meta/agents", ".airic/meta/doctypes",
      ".airic/meta/workflows", ".airic/history"] ∧
    (workspaceValidate (validWsFS.deleteTree (["ws"] ++ relParts ".airic/history")) ["ws"] =
      ["Required directory '" ++ ".airic/history" ++ "' is missing"] ∧
    workspaceValidate
        ((validWsFS.deleteTree (["ws"] ++ relParts ".airic/history")).deleteFile
          (configPath ["ws"])) ["ws"] =
      ["Required directory '" ++ ".airic/history" ++ "' is missing",
       "Configuration file 'config.yaml' is missing"]) :=
  ⟨by decide, C7_validation_completeness ".airic/history" (by decide)⟩

/-! ### Claim C6 -/

/-- Counterexample to C6 as stated: when the config file does not yet exist,
`Workspace.initialize` overwrites a caller-supplied `created_at` with the
current time, and it never defaults `version` for a caller-supplied mapping
(the saved configs here carry `created_at = NOW` despite the caller's `X`,
and no `version` key at all). -/
theorem C6_counterexample :
    (workspaceWsInit freshWsFS ["ws"] (some [("created_at", some "X")]) "NOW").1 =
      (true, some [("created_at", some "NOW")]) ∧
    (workspaceWsInit freshWsFS ["ws"] (some [("name", some "n")]) "NOW").1 =
      (true, some [("name", some "n"), ("created_at", some "NOW")]) := by
  constructor
  · decide
  · decide

/-! ### More filesystem helper lemmas -/

theorem fileExists_mkdirOne (fs : FS) (p q : FPath) :
    (fs.mkdirOne p).fileExists q = fs.fileExists q := by
  unfold FS.mkdirOne FS.fileExists
  by_cases h : fs.isDir p <;> simp [h]

theorem isDir_writeFile (fs : FS) (p : FPath) (c : String) (q : FPath) :
    (fs.writeFile p c).isDir q = fs.isDir q := rfl

theorem isDir_eq_true_iff_mem (fs : FS) (p : FPath) :
    fs.isDir p = true ↔ p ∈ fs.dirs := by
  simp [FS.isDir, List.contains, List.elem_iff]

theorem pyDictSet_lookup_self (d : PyDict) (k : String) (v : Option String) :
    (pyDictSet d k v).lookup k = some v := by
  induction d with
  | nil => simp [pyDictSet, List.lookup]
  | cons a t ih =>
      obtain ⟨k0, v0⟩ := a
      by_cases h : k0 = k
      · simp [pyDictSet, h, List.lookup]
      · have hk : (k == k0) = false := beq_eq_false_iff_ne.mpr (Ne.symm h)
        simpa [pyDictSet, h, List.lookup, hk] using ih

theorem pyDictSet_lookup_ne (d : PyDict) (k k' : String) (v : Option String)
    (h : k' ≠ k) :
    (pyDictSet d k v).lookup k' = d.lookup k' := by
  have hk : (k' == k) = false := beq_eq_false_iff_ne.mpr h
  induction d with
  | nil => simp [pyDictSet, List.lookup, hk]
  | cons a t ih =>
      obtain ⟨k0, v0⟩ := a
      by_cases h0 : k0 = k
      · subst h0
        simp [pyDictSet, List.lookup, hk]
      · by_cases hb : (k' == k0) = true
        · simp [pyDictSet, h0, List.lookup, hb]
        · rw [Bool.not_eq_true] at hb
          simpa [pyDictSet, h0, List.lookup, hb] using ih

set_option maxHeartbeats 2000000 in
/-- C6 (amended): a call on an existing root succeeds, creates all required
directories and the config file, and preserves every caller-supplied key
except `created_at`; `created_at` is overwritten with the current time
whenever the config file did not already exist (even when the caller
supplied it), and no key is defaulted when a config mapping is supplied
(`DEFAULT_CONFIG`, which has `version`, applies only when no mapping is
passed); when the config file already existed the data is saved verbatim. -/
theorem C6_config_defaults (fs : FS) (root : FPath) (cfg : Option PyDict)
    (now : String) (hroot : fs.isDir root = true) :
    (workspaceWsInit fs root cfg now).1.1 = true ∧
    (∀ d ∈ REQUIRED_DIRS,
      (workspaceWsInit fs root cfg now).2.isDir (root ++ relParts d) = true) ∧
    (workspaceWsInit fs root cfg now).2.fileExists (configPath root) = true ∧
    ∃ saved : PyDict,
      (workspaceWsInit fs root cfg now).1.2 = some saved ∧
      (workspaceWsInit fs root cfg now).2.readFile (configPath root) =
        some (configDump saved) ∧
      (∀ k v, k ≠ "created_at" → (cfg.getD DEFAULT_CONFIG).lookup k = some v →
        saved.lookup k = some v) ∧
      (fs.fileExists (configPath root) = false →
        saved.lookup "created_at" = some (some now)) ∧
      (fs.fileExists (configPath root) = true → saved = cfg.getD DEFAULT_CONFIG) := by
  have hneg : (!(fs.isDir root)) = false := by rw [hroot]; rfl
  unfold workspaceWsInit
  rw [hneg]
  simp only [Bool.false_eq_true, if_false, fileExists_mkdirOne]
  refine ⟨by trivial, ?_, fileExists_writeFile_self _ _ _, ?_⟩
  · intro d hd
    fin_cases hd
    · rw [isDir_eq_true_iff_mem]
      exact mkdirOne_mem_of_mem _ _ _ (mkdirOne_mem_of_mem _ _ _ (mkdirOne_mem_of_mem _ _ _
        (mkdirOne_mem_of_mem _ _ _ (mkdirOne_mem_of_mem _ _ _ (mkdirOne_mem_self _ _)))))
    · rw [isDir_eq_true_iff_mem]
      exact mkdirOne_mem_of_mem _ _ _ (mkdirOne_mem_of_mem _ _ _ (mkdirOne_mem_of_mem _ _ _
        (mkdirOne_mem_of_mem _ _ _ (mkdirOne_mem_self _ _))))
    · rw [isDir_eq_true_iff_mem]
      exact mkdirOne_mem_of_mem _ _ _ (mkdirOne_mem_of_mem _ _ _
        (mkdirOne_mem_of_mem _ _ _ (mkdirOne_mem_self _ _)))
    · rw [isDir_eq_true_iff_mem]
      exact mkdirOne_mem_of_mem _ _ _ (mkdirOne_mem_of_mem _ _ _ (mkdirOne_mem_self _ _))
    · rw [isDir_eq_true_iff_mem]
      exact mkdirOne_mem_of_mem _ _ _ (mkdirOne_mem_self _ _)
    · rw [isDir_eq_true_iff_mem]
      exact mkdirOne_mem_self _ _
  · by_cases hex : fs.fileExists (configPath root) = true
    · simp only [hex, Bool.not_true, Bool.false_eq_true, if_false]
      refine ⟨_, rfl, readFile_writeFile_self _ _ _, ?_, ?_, fun _ => rfl⟩
      · intro k v _ hv; exact hv
      · intro hcontra; simp at hcontra
    · rw [Bool.not_eq_true] at hex
      simp only [hex, Bool.not_false, if_true]
      refine ⟨_, rfl, readFile_writeFile_self _ _ _, ?_, ?_, ?_⟩
      · intro k v hk hv
        rw [pyDictSet_lookup_ne _ _ _ _ hk]
        exact hv
      · intro _; exact pyDictSet_lookup_self _ _ _
      · intro hcontra; simp at hcontra

/-- Witness for C6: a fresh root directory and a caller config without
`version`. -/
theorem C6_config_defaults_witness :
    freshWsFS.isDir ["ws"] = true ∧
    ((workspaceWsInit freshWsFS ["ws"] (some [("name", some "n")]) "NOW").1.1 = true ∧
     (∀ d ∈ REQUIRED_DIRS,
       (workspaceWsInit freshWsFS ["ws"] (some [("name", some "n")]) "NOW").2.isDir
         (["ws"] ++ relParts d) = true) ∧
     (workspaceWsInit freshWsFS ["ws"] (some [("name", some "n")]) "NOW").2.fileExists
       (configPath ["ws"]) = true ∧
     ∃ saved : PyDict,
       (workspaceWsInit freshWsFS ["ws"] (some [("name", some "n")]) "NOW").1.2 =
         some saved ∧
       (workspaceWsInit freshWsFS ["ws"] (some [("name", some "n")]) "NOW").2.readFile
         (configPath ["ws"]) = some (configDump saved) ∧
       (∀ k v, k ≠ "created_at" →
         ((some [("name", some "n")] : Option PyDict).getD DEFAULT_CONFIG).lookup k =
           some v → saved.lookup k = some v) ∧
       (freshWsFS.fileExists (configPath ["ws"]) = false →
         saved.lookup "created_at" = some (some "NOW")) ∧
       (freshWsFS.fileExists (configPath ["ws"]) = true →
         saved = (some [("name", some "n")] : Option PyDict).getD DEFAULT_CONFIG)) :=
  ⟨by decide,
   C6_config_defaults freshWsFS ["ws"] (some [("name", some "n")]) "NOW" (by decide)⟩

/-! ### Claim C8 -/

/-- Directory preservation through the template loop, phrased on a given
run equation. -/
theorem templateLoop_dirs_mono2 (md : FPath) (f : Option Nat)
    (ts : List (String × String)) (i : Nat) (fs : FS) (cr : List FPath)
    (q : FPath) (b : Bool) (fsx : FS) (crf : List FPath)
    (heq : templateLoop md f ts i fs cr = (b, fsx, crf)) (h : q ∈ fs.dirs) :
    q ∈ fsx.dirs := by
  have hm := templateLoop_dirs_mono md f ts i fs cr q h
  rw [heq] at hm
  exact hm

/-- After a successful `initialize_workspace` run the workspace is
structurally initialized. -/
theorem initWS_isInit_after (fs : FS) (dir : FPath) (cfg : Option PyDict)
    (now : String) (f : Option Nat)
    (h : (initialize_workspace fs dir cfg now f).1.1 = true) :
    workspaceIsInitialized (initialize_workspace fs dir cfg now f).2 dir = true := by
  by_cases hinit : workspaceIsInitialized fs dir = true
  · unfold initialize_workspace
    rw [hinit]
    simpa using hinit
  · rw [Bool.not_eq_true] at hinit
    unfold initialize_workspace at h ⊢
    rw [hinit] at h ⊢
    simp only [Bool.false_eq_true, if_false] at h ⊢
    split
    case _ fsx crf heq =>
      rw [heq] at h
      simp at h
    case _ fsx snd heq =>
      have base : ∀ q ∈ [dir ++ [".airic"], dir ++ [".airic"] ++ ["meta"],
          dir ++ [".airic"] ++ ["meta", "agents"], dir ++ [".airic"] ++ ["meta", "doctypes"],
          dir ++ [".airic"] ++ ["meta", "workflows"], dir ++ [".airic"] ++ ["history"]],
          q ∈ (([dir ++ [".airic"], dir ++ [".airic"] ++ ["meta"],
            dir ++ [".airic"] ++ ["meta", "agents"], dir ++ [".airic"] ++ ["meta", "doctypes"],
            dir ++ [".airic"] ++ ["meta", "workflows"],
            dir ++ [".airic"] ++ ["history"]]).foldl FS.makedirs fs).dirs := by
        intro q hq
        simp only [List.foldl_cons, List.foldl_nil]
        fin_cases hq
        · exact makedirs_mem_of_mem _ _ _ (makedirs_mem_of_mem _ _ _
            (makedirs_mem_of_mem _ _ _ (makedirs_mem_of_mem _ _ _
              (makedirs_mem_of_mem _ _ _ (makedirs_mem_self _ _ (by simp))))))
        · exact makedirs_mem_of_mem _ _ _ (makedirs_mem_of_mem _ _ _
            (makedirs_mem_of_mem _ _ _ (makedirs_mem_of_mem _ _ _
              (makedirs_mem_self _ _ (by simp)))))
        · exact makedirs_mem_of_mem _ _ _ (makedirs_mem_of_mem _ _ _
            (makedirs_mem_of_mem _ _ _ (makedirs_mem_self _ _ (by simp))))
        · exact makedirs_mem_of_mem _ _ _ (makedirs_mem_of_mem _ _ _
            (makedirs_mem_self _ _ (by simp)))
        · exact makedirs_mem_of_mem _ _ _ (makedirs_mem_self _ _ (by simp))
        · exact makedirs_mem_self _ _ (by simp)
      have hmem : ∀ q ∈ [dir ++ [".airic"], dir ++ [".airic"] ++ ["meta"],
          dir ++ [".airic"] ++ ["meta", "agents"], dir ++ [".airic"] ++ ["meta", "doctypes"],
          dir ++ [".airic"] ++ ["meta", "workflows"], dir ++ [".airic"] ++ ["history"]],
          q ∈ fsx.dirs := by
        intro q hq
        exact templateLoop_dirs_mono2 _ _ _ _ _ _ q _ _ _ heq (base q hq)
      by_cases hr : fsx.fileExists (dir ++ ["README.md"]) = true
      · simp only [hr, if_true]
        simp only [workspaceIsInitialized, Bool.and_eq_true, isDir_eq_true_iff_mem]
        refine ⟨⟨⟨⟨⟨?_, ?_⟩, ?_⟩, ?_⟩, ?_⟩, ?_⟩ <;>
          · apply hmem
            simp
      · simp only [hr, Bool.false_eq_true, if_false]
        simp only [workspaceIsInitialized, Bool.and_eq_true, isDir_eq_true_iff_mem]
        refine ⟨⟨⟨⟨⟨?_, ?_⟩, ?_⟩, ?_⟩, ?_⟩, ?_⟩ <;>
          · show _ ∈ (FS.writeFile _ _ _).dirs
            rw [writeFile_dirs]
            apply hmem
            simp

/-- C8: once `initialize_workspace` has succeeded on a directory, calling it
again returns success with exactly the message "Workspace already
initialized" and leaves the filesystem untouched (the early return fires
before any write). -/
theorem C8_idempotence (fs : FS) (dir : FPath) (cfg cfg' : Option PyDict)
    (now now' : String) (f f' : Option Nat)
    (h : (initialize_workspace fs dir cfg now f).1.1 = true) :
    initialize_workspace (initialize_workspace fs dir cfg now f).2 dir cfg' now' f' =
      ((true, ["Workspace already initialized"]),
       (initialize_workspace fs dir cfg now f).2) := by
  have hi := initWS_isInit_after fs dir cfg now f h
  generalize hg : (initialize_workspace fs dir cfg now f).2 = fs2 at hi ⊢
  unfold initialize_workspace
  rw [hi]
  simp

/-- Witness for C8: a first run on a fresh directory, then a second run. -/
theorem C8_idempotence_witness :
    (initialize_workspace freshWsFS ["ws"] none "NOW" none).1.1 = true ∧
    initialize_workspace (initialize_workspace freshWsFS ["ws"] none "NOW" none).2
        ["ws"] none "T2" none =
      ((true, ["Workspace already initialized"]),
       (initialize_workspace freshWsFS ["ws"] none "NOW" none).2) :=
  ⟨by decide,
   C8_idempotence freshWsFS ["ws"] none none "NOW" "T2" none none (by decide)⟩

/-! ### Claim C5 -/

/-- C5: `find_workspace_root` is total (it is defined by structural descent
on the directory depth) and returns exactly the first directory in the
ancestor chain — the start directory or its nearest ancestor — containing a
`.airic` marker directory, and `none` when the filesystem root is reached
with no match. -/
theorem C5_find_workspace_root_correct (fs : FS) (p : FPath) :
    find_workspace_root fs p =
      (ancestorChain p).find? (fun d => fs.isDir (d ++ [".airic"])) := by
  have H : ∀ n (q : FPath), q.length ≤ n →
      find_workspace_root fs q =
        (ancestorChain q).find? (fun d => fs.isDir (d ++ [".airic"])) := by
    intro n
    induction n with
    | zero =>
        intro q hq
        have hq0 : q = [] := List.length_eq_zero.mp (Nat.le_zero.mp hq)
        subst hq0
        rw [find_workspace_root, ancestorChain]
        by_cases h1 : fs.isDir (([] : FPath) ++ [".airic"]) = true
        · simp [h1, List.find?_cons_of_pos]
        · rw [Bool.not_eq_true] at h1
          simp [h1, List.find?_cons_of_neg]
    | succ n ih =>
        intro q hq
        rw [find_workspace_root, ancestorChain]
        by_cases h1 : fs.isDir (q ++ [".airic"]) = true
        · simp [h1, List.find?_cons_of_pos]
        · rw [Bool.not_eq_true] at h1
          by_cases hq0 : q = []
          · subst hq0
            simp [h1, List.find?_cons_of_neg]
          · have hrec := ih q.dropLast
              (by rw [List.length_dropLast]; omega)
            simp [h1, hq0, List.find?_cons_of_neg, hrec]
  exact H p.length p le_rfl

/-! ### Claim C3 -/

/-- Counterexample to C3 as stated: open a document whose metadata names
agent `helper`, then close it — the session afterwards has no active
document, yet the active agent is still `helper`: the `/close` handler
clears the document and the doctype but not the agent. -/
theorem C3_counterexample :
    (handleOpen yamlDumpModel yamlLoadModel "NOW" agentDocFS wsSession
        "doc.md".toList).map
      (fun pr => ((handleClose pr.1).active_document,
                  (handleClose pr.1).active_agent)) =
    .ok (none, some "helper") := by decide

/-- C3 (amended): `/close` always clears the active document and doctype
but leaves the active agent unchanged; `/open`, when it loads a document,
refreshes both doctype and agent from the newly opened document's metadata;
`/new`, when it creates a document, refreshes only the doctype and leaves
the active agent unchanged — so the doctype tracks the active document but
the agent can go stale after `/close` and `/new`. -/
theorem C3_session_state
    (ydump : YValue → Str) (yload : Str → Option YValue) (now : String)
    (sC : REPLState) (hC : sC.active_document.isSome = true)
    (fsO : FS) (sO : REPLState) (argsO : Str) (root rp : FPath) (d : DocState)
    (dt ag : Option String)
    (hw : sO.workspace = some root)
    (hne : pyStrip argsO ≠ [])
    (hres : resolveDocumentPath root (sO.active_document.map (fun d0 => d0.path))
      (pyStrip argsO) = some rp)
    (hex : fsO.fileExists rp = true)
    (hsame : sO.active_document.map (fun d0 => d0.path) ≠ some rp)
    (hinit : documentInit yload fsO rp none = .ok d)
    (hdt : documentDoctype d = .ok dt) (hag : documentAgent d = .ok ag)
    (fsN : FS) (sN : REPLState) (argsN : Str) (rootN pN : FPath)
    (dtN : Option String)
    (hwN : sN.workspace = some rootN)
    (hneN : argsN ≠ [])
    (hpN : pN = (if (pyStrip argsN).head? = some '/' then splitSlash (pyStrip argsN)
      else rootN ++ splitSlash (pyStrip argsN)))
    (hexN : fsN.fileExists pN = false)
    (hdtN : documentDoctype (documentSave ydump fsN
      (documentCreateEmpty ydump yload pN none none now)).2 = .ok dtN) :
    ((handleClose sC).active_document = none ∧
     (handleClose sC).active_doctype = none ∧
     (handleClose sC).active_agent = sC.active_agent) ∧
    handleOpen ydump yload now fsO sO argsO =
      .ok ({ sO with active_document := some d
                     active_doctype := dt
                     active_agent := ag }, fsO) ∧
    handleNew ydump yload now fsN sN argsN =
      .ok ({ sN with
              active_document :=
                some (documentSave ydump fsN
                  (documentCreateEmpty ydump yload pN none none now)).2
              active_doctype := dtN },
           (documentSave ydump fsN
             (documentCreateEmpty ydump yload pN none none now)).1) ∧
    ({ sN with
        active_document :=
          some (documentSave ydump fsN
            (documentCreateEmpty ydump yload pN none none now)).2
        active_doctype := dtN } : REPLState).active_agent = sN.active_agent := by
  obtain ⟨d0, hd0⟩ := Option.isSome_iff_exists.mp hC
  refine ⟨?_, ?_, ?_, rfl⟩
  · simp [handleClose, hd0]
  · simp only [handleOpen, hw]
    simp only [hne, if_false, hres, hex, Bool.not_true, Bool.false_eq_true,
      if_false, hsame, hinit, hdt, hag]
  · subst hpN
    simp only [handleNew, hwN]
    simp only [hneN, if_false, hexN, Bool.not_false, Bool.false_eq_true,
      if_false, hdtN]

/-- Witness for C3: a session with an open document for `/close`, the
`helper`-agent document for `/open`, and a fresh path for `/new`. -/
theorem C3_session_state_witness :
    (((handleClose ⟨some ["ws"],
        some (documentOfContent yamlLoadModel ["ws", "doc.md"] "Body".toList),
        none, some "x"⟩).active_document = none ∧
      (handleClose ⟨some ["ws"],
        some (documentOfContent yamlLoadModel ["ws", "doc.md"] "Body".toList),
        none, some "x"⟩).active_doctype = none ∧
      (handleClose ⟨some ["ws"],
        some (documentOfContent yamlLoadModel ["ws", "doc.md"] "Body".toList),
        none, some "x"⟩).active_agent =
        (⟨some ["ws"],
          some (documentOfContent yamlLoadModel ["ws", "doc.md"] "Body".toList),
          none, some "x"⟩ : REPLState).active_agent) ∧
     handleOpen yamlDumpModel yamlLoadModel "NOW" agentDocFS wsSession
         "doc.md".toList =
       .ok ({ wsSession with
               active_document := some (documentOfContent yamlLoadModel
                 ["ws", "doc.md"] "---\nagent: helper\n---\nBody".toList)
               active_doctype := none
               active_agent := some "helper" }, agentDocFS) ∧
     handleNew yamlDumpModel yamlLoadModel "NOW" freshWsFS wsSession
         "new_doc.md".toList =
       .ok ({ wsSession with
               active_document :=
                 some (documentSave yamlDumpModel freshWsFS
                   (documentCreateEmpty yamlDumpModel yamlLoadModel
                     ["ws", "new_doc.md"] none none "NOW")).2
               active_doctype := none },
            (documentSave yamlDumpModel freshWsFS
              (documentCreateEmpty yamlDumpModel yamlLoadModel
                ["ws", "new_doc.md"] none none "NOW")).1) ∧
     ({ wsSession with
         active_document :=
           some (documentSave yamlDumpModel freshWsFS
             (documentCreateEmpty yamlDumpModel yamlLoadModel
               ["ws", "new_doc.md"] none none "NOW")).2
         active_doctype := none } : REPLState).active_agent =
       wsSession.active_agent) :=
  C3_session_state yamlDumpModel yamlLoadModel "NOW"
    ⟨some ["ws"], some (documentOfContent yamlLoadModel ["ws", "doc.md"]
      "Body".toList), none, some "x"⟩ (by decide)
    agentDocFS wsSession "doc.md".toList ["ws"] ["ws", "doc.md"]
    (documentOfContent yamlLoadModel ["ws", "doc.md"]
      "---\nagent: helper\n---\nBody".toList)
    none (some "helper") (by decide) (by decide) (by decide) (by decide)
    (by decide) (by decide) (by decide) (by decide)
    freshWsFS wsSession "new_doc.md".toList ["ws"] ["ws", "new_doc.md"] none
    (by decide) (by decide) (by decide) (by decide) (by decide)

/-! ### Claim C1: helper lemmas on searching and stripping -/

theorem findIdxAux_eq_some (pat : Str) (s : Str) (j : Nat)
    (hj : pat.isPrefixOf (s.drop j) = true)
    (hmin : ∀ m, m < j → pat.isPrefixOf (s.drop m) = false) :
    findIdxAux pat s = some j := by
  induction s generalizing j with
  | nil =>
      have hpat : pat.isPrefixOf ([] : Str) = true := by simpa using hj
      have hpe : pat = [] := by
        cases pat with
        | nil => rfl
        | cons c t => simp [List.isPrefixOf] at hpat
      subst hpe
      cases j with
      | zero => simp [findIdxAux]
      | succ j' =>
          have h0 := hmin 0 (Nat.succ_pos _)
          simp [List.isPrefixOf] at h0
  | cons c t ih =>
      cases j with
      | zero =>
          simp only [List.drop_zero] at hj
          simp [findIdxAux, hj]
      | succ j' =>
          have h0 : pat.isPrefixOf (c :: t) = false := by
            simpa using hmin 0 (Nat.succ_pos _)
          have hrec : findIdxAux pat t = some j' := by
            apply ih
            · simpa using hj
            · intro m hm
              simpa using hmin (m + 1) (by omega)
          simp [findIdxAux, h0, hrec]

theorem sep_isPrefixOf_iff (t : Str) :
    fmSep.isPrefixOf t = true ↔
      (t[0]? = some '-' ∧ t[1]? = some '-' ∧ t[2]? = some '-') := by
  rcases t with _ | ⟨a, _ | ⟨b, _ | ⟨c, r⟩⟩⟩
  · simp [fmSep, List.isPrefixOf]
  · simp [fmSep, List.isPrefixOf]
  · simp [fmSep, List.isPrefixOf]
  · simp only [fmSep, List.isPrefixOf, Bool.and_eq_true, beq_iff_eq,
      List.getElem?_cons_zero, List.getElem?_cons_succ, Option.some_inj]
    constructor
    · intro h
      exact ⟨h.1.symm, h.2.1.symm, h.2.2.1.symm⟩
    · intro h
      exact ⟨h.1.symm, h.2.1.symm, h.2.2.symm, by simp [List.isPrefixOf]⟩

theorem pyStrip_cons_newline (s : Str) : pyStrip ('\n' :: s) = pyStrip s := by
  unfold pyStrip
  rw [List.dropWhile_cons_of_pos (by decide)]

/-- Counterexample to C1 as stated: the body is stripped on parse, so a body
with leading whitespace does not round-trip even for nonempty metadata. -/
theorem C1_counterexample :
    documentParse yamlLoadModel
        (documentSerialize yamlDumpModel (YValue.mapping [("a", "b")]) " x".toList) ≠
      (YValue.mapping [("a", "b")], " x".toList) := by decide

/-- C1 (amended): for a nonempty metadata mapping the round-trip holds
provided the YAML dump of the metadata contains no `---` substring and ends
with a newline, loading the stripped dump gives the metadata back, and the
body carries no leading or trailing whitespace; for empty metadata the
serialization is exactly the body, and parsing it recovers empty metadata
and the unchanged body whenever the body does not itself start with the
`---` delimiter. -/
theorem C1_roundtrip (ydump : YValue → Str) (yload : Str → Option YValue)
    (M : List (String × String)) (B : Str)
    (hM : M ≠ [])
    (hlast : (ydump (YValue.mapping M)).getLast? = some '\n')
    (hnosep : ∀ k, k < (ydump (YValue.mapping M)).length →
      fmSep.isPrefixOf ((ydump (YValue.mapping M)).drop k) = false)
    (hload : yload (pyStrip (ydump (YValue.mapping M))) = some (YValue.mapping M))
    (hB : pyStrip B = B) :
    documentParse yload (documentSerialize ydump (YValue.mapping M) B) =
      (YValue.mapping M, B) ∧
    documentSerialize ydump (YValue.mapping []) B = B ∧
    (fmSep.isPrefixOf B = false →
      documentParse yload B = (YValue.mapping [], B)) := by
  set y := ydump (YValue.mapping M) with hy
  set n := y.length with hn
  have hfalsy : (YValue.mapping M).isFalsy = false := by
    cases M with
    | nil => exact absurd rfl hM
    | cons a t => rfl
  have hylen : 0 < n := by
    cases hyc : y with
    | nil => rw [hyc] at hlast; simp at hlast
    | cons c t => rw [hn, hyc]; simp
  refine ⟨?_, ?_, ?_⟩
  case refine_2 => rfl
  case refine_3 =>
    intro hpb
    simp [documentParse, hpb]
  have hser : documentSerialize ydump (YValue.mapping M) B =
      fmSep ++ (('\n' :: y) ++ (fmSep ++ ('\n' :: '\n' :: B))) := by
    simp [documentSerialize, hfalsy, List.append_assoc]
  set X : Str := ('\n' :: y) ++ (fmSep ++ ('\n' :: '\n' :: B)) with hX
  have hdrop3 : (fmSep ++ X).drop fmSep.length = X := List.drop_left _ _
  have hfound : findIdxAux fmSep X = some (n + 1) := by
    apply findIdxAux_eq_some
    · have hXd : X.drop (n + 1) = fmSep ++ ('\n' :: '\n' :: B) := by
        rw [hX]
        have hl : ('\n' :: y).length = n + 1 := by rw [hn]; simp
        rw [← hl, List.drop_left]
      rw [hXd]
      exact List.isPrefixOf_iff_prefix.mpr (List.prefix_append _ _)
    · intro m hm
      rcases Nat.eq_zero_or_pos m with hm0 | hmpos
      · subst hm0
        rw [List.drop_zero, hX]
        simp [List.isPrefixOf, fmSep]
      · obtain ⟨k, rfl⟩ : ∃ k, m = k + 1 := ⟨m - 1, by omega⟩
        have hk : k < n := by omega
        have hXd : X.drop (k + 1) = (y ++ (fmSep ++ ('\n' :: '\n' :: B))).drop k := by
          rw [hX, List.cons_append, List.drop_succ_cons]
        rw [hXd]
        by_contra hcon
        rw [Bool.not_eq_false, sep_isPrefixOf_iff] at hcon
        obtain ⟨g0, g1, g2⟩ := hcon
        rw [List.getElem?_drop] at g0 g1 g2
        by_cases hfit : k + 3 ≤ n
        · have e0 : (y ++ (fmSep ++ ('\n' :: '\n' :: B)))[k + 0]? = y[k + 0]? :=
            List.getElem?_append_left (by omega)
          have e1 : (y ++ (fmSep ++ ('\n' :: '\n' :: B)))[k + 1]? = y[k + 1]? :=
            List.getElem?_append_left (by omega)
          have e2 : (y ++ (fmSep ++ ('\n' :: '\n' :: B)))[k + 2]? = y[k + 2]? :=
            List.getElem?_append_left (by omega)
          have hpre : fmSep.isPrefixOf (y.drop k) = true := by
            rw [sep_isPrefixOf_iff, List.getElem?_drop, List.getElem?_drop,
              List.getElem?_drop]
            exact ⟨by rw [← e0]; exact g0, by rw [← e1]; exact g1,
              by rw [← e2]; exact g2⟩
          simp [hnosep k hk] at hpre
        · have hn1 : n - 1 < y.length := by omega
          have hlastc : (y ++ (fmSep ++ ('\n' :: '\n' :: B)))[n - 1]? = some '\n' := by
            rw [List.getElem?_append_left hn1]
            show y[y.length - 1]? = some '\n'
            rw [← List.getLast?_eq_getElem?]
            exact hlast
          rcases (by omega : n - 1 = k + 0 ∨ n - 1 = k + 1 ∨ n - 1 = k + 2) with
            hc | hc | hc
          · rw [hc, g0] at hlastc; simp at hlastc
          · rw [hc, g1] at hlastc; simp at hlastc
          · rw [hc, g2] at hlastc; simp at hlastc
  have hpyfind : pyFind (fmSep ++ X) fmSep fmSep.length =
      some (n + 1 + fmSep.length) := by
    unfold pyFind
    rw [hdrop3, hfound]
    rfl
  have hfm : ((fmSep ++ X).drop fmSep.length).take (n + 1 + fmSep.length - fmSep.length) =
      '\n' :: y := by
    rw [hdrop3, Nat.add_sub_cancel, hX]
    have hl : ('\n' :: y).length = n + 1 := by rw [hn]; simp
    rw [← hl, List.take_left]
  have hbody : (fmSep ++ X).drop (n + 1 + fmSep.length + fmSep.length) =
      '\n' :: '\n' :: B := by
    rw [hX, ← List.append_assoc, ← List.append_assoc]
    have hlen : ((fmSep ++ ('\n' :: y)) ++ fmSep).length =
        n + 1 + fmSep.length + fmSep.length := by
      simp [hn, fmSep]
    rw [← hlen, List.drop_left]
  have hpre : fmSep.isPrefixOf (fmSep ++ X) = true :=
    List.isPrefixOf_iff_prefix.mpr (List.prefix_append _ _)
  rw [hser]
  simp only [documentParse, hpre, if_true, hpyfind, hfm, hbody,
    pyStrip_cons_newline, hB, hload, hfalsy, Bool.false_eq_true, if_false]

/-- Witness for C1: the concrete YAML model, metadata `{a: b}` and body `x`. -/
theorem C1_roundtrip_witness :
    ([("a", "b")] : List (String × String)) ≠ [] ∧
    (yamlDumpModel (YValue.mapping [("a", "b")])).getLast? = some '\n' ∧
    (documentParse yamlLoadModel
        (documentSerialize yamlDumpModel (YValue.mapping [("a", "b")]) "x".toList) =
      (YValue.mapping [("a", "b")], "x".toList) ∧
     documentSerialize yamlDumpModel (YValue.mapping []) "x".toList = "x".toList ∧
     (fmSep.isPrefixOf "x".toList = false →
       documentParse yamlLoadModel "x".toList = (YValue.mapping [], "x".toList))) :=
  ⟨by decide, by decide,
   C1_roundtrip yamlDumpModel yamlLoadModel [("a", "b")] "x".toList
     (by decide) (by decide) (by decide) (by decide) (by decide)⟩
